import Mathlib

/-
  Verification of the hackUTD TicketHub frontend logic.

  The definitions below are a shallow embedding of the TypeScript source:
  - Entry models the ticket / log records handled by the two Dashboard
    variants in src/frontend/src/components/TicketForm.tsx; fields that the
    code guards (or that may be absent in fetched JSON) are Option-valued.
  - The ticket-variant filter accesses t.title and t.description without a
    guard, so a missing field is a thrown TypeError; that partiality is made
    explicit with Except.
  - The log-variant filter guards hostname and label, so it is a total
    Boolean predicate, followed by a sort.  Array.prototype.sort with the
    comparator (a, b) => numA - numB is required by the ECMAScript spec to be
    stable and to sort by the comparator, which uniquely determines the
    output; List.insertionSort with the corresponding key order is exactly
    that stable sort and is used as its model.
-/

namespace TicketHub

/-- A ticket or log record as handled by the dashboards.  Fields absent in a
fetched JSON object are represented by none. -/
structure Entry where
  id : Int := 0
  title : Option String := none
  description : Option String := none
  priority : Option String := none
  status : Option String := none
  hostname : Option String := none
  label : Option String := none
  reporter : Option String := none
  assignee : Option String := none
deriving DecidableEq

/-- JS String.prototype.toLowerCase, character by character. -/
def strToLower (s : String) : String :=
  ⟨s.data.map Char.toLower⟩

/-- JS String.prototype.trim: strip leading and trailing whitespace. -/
def strTrim (s : String) : String :=
  ⟨((s.data.dropWhile Char.isWhitespace).reverse.dropWhile
      Char.isWhitespace).reverse⟩

/-- JS Number(sel), for the severity selector strings: a non-empty
all-digit string is its decimal value; the selectable non-numeric value All
is NaN, which compares unequal to every number, modelled as none. -/
def strToNat? (s : String) : Option Nat :=
  if !s.data.isEmpty && s.data.all Char.isDigit then
    some (s.data.foldl (fun n c => n * 10 + (c.toNat - 48)) 0)
  else none

/-- JS String.prototype.charAt(0): the one-character string holding the
first character, or the empty string for an empty receiver. -/
def charAt0 (s : String) : String :=
  match s.data with
  | [] => ""
  | c :: _ => String.singleton c

/-- Whether pat occurs as a contiguous run inside l. -/
def hasInfix (l pat : List Char) : Bool :=
  match l with
  | [] => pat.isEmpty
  | _ :: t => pat.isPrefixOf l || hasInfix t pat

/-- JS String.prototype.includes, on the character lists of the strings. -/
def strIncludes (s pat : String) : Bool :=
  hasInfix s.data pat.data

/-- JS strict equality between a possibly-undefined string field and a
string: undefined === v is false. -/
def optStrEq (o : Option String) (v : String) : Bool :=
  match o with
  | some s => s == v
  | none => false

/-- Search match of the ticket variant:
t.title.toLowerCase().includes(query) || t.description.toLowerCase().includes(query).
Accessing a missing field throws a TypeError, modelled as Except.error; the
second disjunct is only evaluated when the first is false. -/
def matchesSearchTicket (query : String) (t : Entry) : Except String Bool :=
  match t.title with
  | none => .error "TypeError: t.title is undefined"
  | some ti =>
    if strIncludes (strToLower ti) query then .ok true
    else
      match t.description with
      | none => .error "TypeError: t.description is undefined"
      | some d => .ok (strIncludes (strToLower d) query)

/-- The ticket-variant filter predicate (TicketForm.tsx, lines 227-235):
matchesSearch && matchesPriority && matchesStatus, where the categorical
selectors are bypassed by the sentinel "All". -/
def ticketPred (query priorityFilter statusFilter : String) (t : Entry) :
    Except String Bool := do
  let matchesSearch ← matchesSearchTicket query t
  let matchesPriority := priorityFilter == "All" || optStrEq t.priority priorityFilter
  let matchesStatus := statusFilter == "All" || optStrEq t.status statusFilter
  .ok (matchesSearch && matchesPriority && matchesStatus)

/-- Array.prototype.filter with a predicate that may throw: elements are
tested left to right and the first thrown error aborts the whole call. -/
def filterM (p : Entry → Except String Bool) : List Entry → Except String (List Entry)
  | [] => .ok []
  | t :: ts =>
    match p t with
    | .error e => .error e
    | .ok b =>
      match filterM p ts with
      | .error e => .error e
      | .ok rest => .ok (if b then t :: rest else rest)

instance {e a : Type} [DecidableEq e] [DecidableEq a] :
    DecidableEq (Except e a) := fun x y =>
  match x, y with
  | .ok x, .ok y =>
    if h : x = y then isTrue (congrArg Except.ok h)
    else isFalse (fun hc => h (Except.ok.inj hc))
  | .error x, .error y =>
    if h : x = y then isTrue (congrArg Except.error h)
    else isFalse (fun hc => h (Except.error.inj hc))
  | .ok _, .error _ => isFalse (fun hc => Except.noConfusion hc)
  | .error _, .ok _ => isFalse (fun hc => Except.noConfusion hc)

/-- filteredTickets of the ticket variant: the query is lower-cased once and
the collection is filtered. -/
def filteredTicketsT (searchQuery priorityFilter statusFilter : String)
    (tickets : List Entry) : Except String (List Entry) :=
  filterM (ticketPred (strToLower searchQuery) priorityFilter statusFilter) tickets

/-- Derived severity key of the log variant:
parseInt((t.label || "").slice(-1)) || 0, i.e. the last character of the
label parsed as a decimal digit, with 0 when the label is missing, empty, or
its last character is not a digit. -/
def severityKey (label : Option String) : Nat :=
  match (label.getD "").data.getLast? with
  | some c => if c.isDigit then c.toNat - 48 else 0
  | none => 0

/-- The log-variant filter predicate (TicketForm.tsx, lines 115-121):
hostname substring match (guarded by || "") and severity equality against
the selector, bypassed by the sentinel "All".  JS Number(sel) on the
selector values "1".."4" is the corresponding numeral; a non-numeric
selector compares unequal to the key, as NaN does. -/
def logPred (query severityFilter : String) (t : Entry) : Bool :=
  let host := strToLower (t.hostname.getD "")
  let matchesSearch := query == "" || strIncludes host query
  let priorityNum := severityKey t.label
  let matchesSeverity := severityFilter == "All" ||
    (match strToNat? severityFilter with
     | some n => priorityNum == n
     | none => false)
  matchesSearch && matchesSeverity

/-- The filtering stage of the log variant (the const named filtered in the
source), before sorting. -/
def logFilter (searchQuery severityFilter : String) (tickets : List Entry) :
    List Entry :=
  tickets.filter (logPred (strToLower searchQuery) severityFilter)

/-- Key order used by the comparator (a, b) => numA - numB. -/
def leKey (a b : Entry) : Prop :=
  severityKey a.label ≤ severityKey b.label

instance : DecidableRel leKey :=
  fun a b => Nat.decLe (severityKey a.label) (severityKey b.label)

instance : IsTotal Entry leKey :=
  ⟨fun a b => Nat.le_total (severityKey a.label) (severityKey b.label)⟩

instance : IsTrans Entry leKey :=
  ⟨fun _ _ _ h h2 => Nat.le_trans h h2⟩

/-- filteredTickets of the log variant: filter, then the stable sort of
Array.prototype.sort with comparator (a, b) => numA - numB, modelled by the
stable insertion sort over the key order. -/
def filteredTicketsL (searchQuery severityFilter : String)
    (tickets : List Entry) : List Entry :=
  List.insertionSort leKey (logFilter searchQuery severityFilter tickets)

/-- handleDelete of the ticket variant (TicketForm.tsx, lines 213-215):
keep the entries whose identifier is not among the selected ones.  The
function is pure: it only rewrites the local collection, no request is
issued. -/
def handleDelete (ids : List Int) (prev : List Entry) : List Entry :=
  prev.filter (fun t => !ids.contains t.id)

/-- handleStatusChange (TicketForm.tsx, lines 218-222): map over the
collection, replacing the status field of the entries whose identifier
matches.  Pure, no request is issued. -/
def handleStatusChange (id : Int) (newStatus : String) (prev : List Entry) :
    List Entry :=
  prev.map (fun t => if t.id == id then { t with status := some newStatus } else t)

/-- Outcome of an awaited fetch: a parsed response of type a, or a failure
(network error, non-ok HTTP status, or JSON parse error, all of which land
in the same catch block). -/
inductive FetchOutcome (a : Type) where
  | success (data : a)
  | failure (msg : String)

/-- The component state of the log-variant Dashboard (TicketForm.tsx, lines
82-89).  It has no error field: a fetch failure is only logged to the
console. -/
structure DashboardState where
  tickets : List Entry
  dialogOpen : Bool
  role : String
  loading : Bool
  searchQuery : String
  severityFilter : String
deriving DecidableEq

/-- The state on mount, before fetchLogs resolves. -/
def initialDashboardState : DashboardState :=
  { tickets := [], dialogOpen := false, role := "Engineer", loading := true,
    searchQuery := "", severityFilter := "All" }

/-- fetchLogs (TicketForm.tsx, lines 93-105): on success the collection is
replaced by the parsed array; on failure only console.error runs; either
way the finally block clears loading. -/
def fetchLogsRun (s : DashboardState) : FetchOutcome (List Entry) → DashboardState
  | .success data => { s with tickets := data, loading := false }
  | .failure _ => { s with loading := false }

/-- The rack reference carried by a server record. -/
structure RackRef where
  label : String
deriving DecidableEq

/-- A server record of the data-center page (ServerDataPage.tsx, lines
10-15). -/
structure Server where
  rack : Option RackRef
  hostname : String
  serial_number : String
  slot : Int
deriving DecidableEq

/-- The parsed JSON body of GET /servers/list; the servers field may be
absent. -/
structure ServersResponse where
  servers : Option (List Server)
deriving DecidableEq

/-- The component state of ServerDataCenterPage (ServerDataPage.tsx, lines
23-26). -/
structure ServerPageState where
  servers : List Server
  selectedRack : Option String
  loading : Bool
  error : Option String
deriving DecidableEq

/-- The state on mount, before fetchServers resolves. -/
def initialServerPageState : ServerPageState :=
  { servers := [], selectedRack := none, loading := true, error := none }

/-- fetchServers (ServerDataPage.tsx, lines 29-42): on success the
collection becomes data.servers || []; on failure the error state is set to
the message; either way the finally block clears loading. -/
def fetchServersRun (s : ServerPageState) :
    FetchOutcome ServersResponse → ServerPageState
  | .success data => { s with servers := data.servers.getD [], loading := false }
  | .failure msg => { s with error := some msg, loading := false }

/-- The state of the ticket-variant TicketForm (TicketForm.tsx, lines
10-12, plus the dialog open flag owned by the caller). -/
structure TicketFormState where
  title : String
  description : String
  priority : String
  dialogOpen : Bool
deriving DecidableEq

/-- The payload handed to the onSubmit callback by the ticket variant. -/
structure TicketPayload where
  title : String
  description : String
  priority : String
  status : String
deriving DecidableEq

/-- handleSubmit of the ticket variant (TicketForm.tsx, lines 14-20): an
empty or whitespace-only title aborts before any effect; otherwise the
callback receives the payload, title and description are reset and the
dialog closes.  No HTTP request exists in this variant.  The second
component is the callback payload, none when nothing happened. -/
def ticketHandleSubmit (st : TicketFormState) :
    TicketFormState × Option TicketPayload :=
  if strTrim st.title == "" then (st, none)
  else
    ({ st with title := "", description := "", dialogOpen := false },
     some { title := st.title, description := st.description,
            priority := st.priority, status := "Open" })

/-- The state of the log-variant TicketForm (src/unnamed/part_005, lines
23-27, plus the dialog open flag owned by the caller). -/
structure LogFormState where
  title : String
  description : String
  priority : String
  hostname : String
  loading : Bool
  dialogOpen : Bool
deriving DecidableEq

/-- The JSON body POSTed to {API_URL}/logs by the log variant. -/
structure LogPayload where
  upload_ts : String
  hostname : String
  label : String
  log_line : String
deriving DecidableEq

/-- The payload built by the log-variant handleSubmit (src/unnamed/part_005,
lines 33-38): hostname defaults to unknown-host when empty, and the label is
the template literal BAD + title + _ + priority.charAt(0). -/
def buildLogPayload (st : LogFormState) : LogPayload :=
  { upload_ts := "Today",
    hostname := if st.hostname == "" then "unknown-host" else st.hostname,
    label := "BAD" ++ st.title ++ "_" ++ charAt0 st.priority,
    log_line := st.description }

/-- handleSubmit of the log variant (src/unnamed/part_005, lines 29-73): a
blank title or description aborts before any effect; otherwise the payload
is POSTed, and depending on the outcome either the fields reset, the dialog
closes and the callback fires, or an alert is shown and the form stays
open.  Result components: final state, request body sent (none when no
request was issued), callback payload, and whether the alert fired. -/
def logHandleSubmit (st : LogFormState) (outcome : FetchOutcome Unit) :
    LogFormState × Option LogPayload × Option LogPayload × Bool :=
  if strTrim st.title == "" || strTrim st.description == "" then (st, none, none, false)
  else
    let payload := buildLogPayload st
    match outcome with
    | .success _ =>
      ({ st with title := "", description := "", priority := "Medium",
                 hostname := "", dialogOpen := false, loading := false },
       some payload, some payload, false)
    | .failure _ =>
      ({ st with loading := false }, some payload, none, true)

/-- TOTAL_RACKS (ServerDataPage.tsx, line 17). -/
def TOTAL_RACKS : Nat := 36

/-- AISLES (ServerDataPage.tsx, line 18). -/
def AISLES : Nat := 6

/-- RACKS_PER_AISLE (ServerDataPage.tsx, line 19). -/
def RACKS_PER_AISLE : Nat := TOTAL_RACKS / AISLES

/-- RACK_LABELS (ServerDataPage.tsx, line 20): R1 .. R36. -/
def RACK_LABELS : List String :=
  (List.range TOTAL_RACKS).map (fun i => "R" ++ toString (i + 1))

/-- aisleGroups (ServerDataPage.tsx, lines 55-57); JS slice(a, b) is drop a
then take (b - a). -/
def aisleGroups : List (List String) :=
  (List.range AISLES).map (fun i =>
    (RACK_LABELS.drop (i * RACKS_PER_AISLE)).take RACKS_PER_AISLE)

/-- The servers bucketed under one rack label (ServerDataPage.tsx, lines
47-53): s.rack?.label === r, with the optional chain yielding false for a
missing rack. -/
def racksFor (servers : List Server) (r : String) : List Server :=
  servers.filter (fun s =>
    match s.rack with
    | some rk => rk.label == r
    | none => false)

/-- The 8 slot rows of the RackDetail view (ServerDataPage.tsx, lines
95-120): for each slot 1..8, the server found at that slot, none rendering
as the empty marker. -/
def rackDetailRows (rackServers : List Server) : List (Int × Option Server) :=
  ((List.range 8).map (fun i => (i : Int) + 1)).map
    (fun slot => (slot, rackServers.find? (fun srv => srv.slot == slot)))

/-- The RackDetail body (ServerDataPage.tsx, lines 89-122): the no-servers
message when the rack is empty, otherwise the 8 slot rows. -/
def rackDetailView (rackServers : List Server) :
    Option (List (Int × Option Server)) :=
  if rackServers.length = 0 then none else some (rackDetailRows rackServers)

/-! Helper lemmas shared by the claim theorems. -/

/-- A successful run of the throwing filter yields a subsequence whose
members all satisfy the predicate. -/
theorem filterM_ok (p : Entry → Except String Bool) (ts : List Entry) :
    ∀ res, filterM p ts = .ok res →
      res.Sublist ts ∧ ∀ u ∈ res, p u = .ok true := by
  induction ts with
  | nil =>
    intro res h
    rw [filterM] at h
    obtain rfl := Except.ok.inj h
    exact ⟨List.Sublist.refl _, by simp⟩
  | cons t ts ih =>
    intro res h
    rw [filterM] at h
    cases hp : p t with
    | error e => rw [hp] at h; cases h
    | ok b =>
      rw [hp] at h
      cases hrec : filterM p ts with
      | error e => rw [hrec] at h; cases h
      | ok rest =>
        rw [hrec] at h
        obtain ⟨hs, hmem⟩ := ih rest hrec
        obtain rfl : (if b then t :: rest else rest) = res := Except.ok.inj h
        cases b with
        | false =>
          simp only [if_neg Bool.false_ne_true]
          exact ⟨hs.trans (List.sublist_cons_self t ts), hmem⟩
        | true =>
          simp only [if_pos rfl]
          refine ⟨List.Sublist.cons₂ t hs, ?_⟩
          intro u hu
          rcases List.mem_cons.mp hu with rfl | hu
          · exact hp
          · exact hmem u hu

/-- Splitting the length of a list along a Boolean predicate. -/
theorem length_filter_not_add (p : Entry → Bool) (l : List Entry) :
    (l.filter (fun t => !p t)).length + (l.filter p).length = l.length := by
  induction l with
  | nil => rfl
  | cons t ts ih =>
    cases h : p t <;> simp [List.filter_cons, h] <;> omega

/-! Claim theorems. -/

/-- C8: with 36 racks and 6 aisles, the rack overview derives exactly 6
aisle groups of 6 racks each, covering the labels R1 through R36 in order:
group i holds R(6(i-1)+1) through R(6i). -/
theorem aisleGroups_spec :
    aisleGroups.length = 6
    ∧ (∀ g ∈ aisleGroups, g.length = 6)
    ∧ aisleGroups.flatten = RACK_LABELS
    ∧ RACK_LABELS.length = 36
    ∧ aisleGroups =
        [["R1", "R2", "R3", "R4", "R5", "R6"],
         ["R7", "R8", "R9", "R10", "R11", "R12"],
         ["R13", "R14", "R15", "R16", "R17", "R18"],
         ["R19", "R20", "R21", "R22", "R23", "R24"],
         ["R25", "R26", "R27", "R28", "R29", "R30"],
         ["R31", "R32", "R33", "R34", "R35", "R36"]] := by
  refine ⟨rfl, ?_, rfl, rfl, rfl⟩
  decide

/-- C3: bulk delete keeps exactly the entries whose identifier is not among
the selected ones, in their original order, and the size shrinks by the
number of entries whose identifier was selected.  The operation is a pure
rewrite of the local collection; no request is issued. -/
theorem handleDelete_spec (ids : List Int) (c : List Entry) :
    (handleDelete ids c).Sublist c
    ∧ (∀ t, t ∈ handleDelete ids c ↔ t ∈ c ∧ ¬ t.id ∈ ids)
    ∧ (handleDelete ids c).length
        = c.length - (c.filter (fun t => ids.contains t.id)).length := by
  refine ⟨List.filter_sublist _, ?_, ?_⟩
  · intro t
    simp only [handleDelete, List.mem_filter, Bool.not_eq_true']
    constructor
    · rintro ⟨hmem, hc⟩
      refine ⟨hmem, fun hin => ?_⟩
      have hq : ids.contains t.id = true := List.elem_iff.mpr hin
      rw [hq] at hc
      cases hc
    · rintro ⟨hmem, hnin⟩
      refine ⟨hmem, ?_⟩
      cases hq : ids.contains t.id with
      | false => rfl
      | true => exact absurd (List.elem_iff.mp hq) hnin
  · have h := length_filter_not_add (fun t => ids.contains t.id) c
    simp only [handleDelete]
    omega

/-- Witness for aisleGroups_spec at a concrete aisle group. -/
theorem aisleGroups_spec_witness :
    ["R1", "R2", "R3", "R4", "R5", "R6"] ∈ aisleGroups
    ∧ (["R1", "R2", "R3", "R4", "R5", "R6"] : List String).length = 6 :=
  ⟨by decide, aisleGroups_spec.2.1 ["R1", "R2", "R3", "R4", "R5", "R6"] (by decide)⟩

/-- A concrete entry used by witnesses. -/
def entryA : Entry :=
  { id := 1, title := some "A", description := some "boot failure",
    priority := some "High", status := some "Open" }

/-- A second concrete entry used by witnesses. -/
def entryB : Entry :=
  { id := 2, title := some "B", description := some "fan noise",
    priority := some "Low", status := some "Open" }

/-- Witness for handleDelete_spec at a concrete collection. -/
theorem handleDelete_spec_witness :
    (handleDelete [2] [entryA, entryB]).Sublist [entryA, entryB]
    ∧ (handleDelete [2] [entryA, entryB]).length
        = ([entryA, entryB] : List Entry).length
          - (([entryA, entryB] : List Entry).filter
              (fun t => ([2] : List Int).contains t.id)).length
    ∧ handleDelete [2] [entryA, entryB] = [entryA] :=
  ⟨(handleDelete_spec [2] [entryA, entryB]).1,
   (handleDelete_spec [2] [entryA, entryB]).2.2, by decide⟩

/-- C1: for every collection and filter criteria, the filtering stage keeps
exactly the entries satisfying all active predicates, in their original
order; in the ticket variant this is the rendered result, in the log
variant the rendered result is additionally a permutation of it produced by
the sort.  Filtering the one-element collection of the scenario with
priority Medium yields the empty sequence. -/
theorem filter_results_spec (sq pf sf sev : String) (ts : List Entry) :
    (∀ res, filteredTicketsT sq pf sf ts = .ok res →
      res.Sublist ts
      ∧ (∀ u ∈ res, ticketPred (strToLower sq) pf sf u = .ok true)
      ∧ (∀ u ∈ ts, ¬ ticketPred (strToLower sq) pf sf u = .ok true → ¬ u ∈ res))
    ∧ (logFilter sq sev ts).Sublist ts
    ∧ (∀ u ∈ logFilter sq sev ts, logPred (strToLower sq) sev u = true)
    ∧ (∀ u ∈ ts, logPred (strToLower sq) sev u = false → ¬ u ∈ logFilter sq sev ts)
    ∧ (filteredTicketsL sq sev ts).Perm (logFilter sq sev ts)
    ∧ filteredTicketsT "" "Medium" "All"
        [{ id := 1, title := some "A", priority := some "High",
           status := some "Open" }] = .ok [] := by
  refine ⟨?_, List.filter_sublist _, ?_, ?_, List.perm_insertionSort leKey _,
    by decide⟩
  · intro res h
    obtain ⟨hs, hmem⟩ := filterM_ok _ ts res h
    exact ⟨hs, hmem, fun u _ hnp hu => hnp (hmem u hu)⟩
  · intro u hu
    exact (List.mem_filter.mp hu).2
  · intro u _ hfalse hu
    rw [(List.mem_filter.mp hu).2] at hfalse
    cases hfalse

/-- Witness for filter_results_spec at a concrete collection. -/
theorem filter_results_spec_witness :
    filteredTicketsT "" "High" "All" [entryA] = .ok [entryA]
    ∧ [entryA].Sublist [entryA]
    ∧ ticketPred (strToLower "") "High" "All" entryA = .ok true :=
  ⟨by decide,
   ((filter_results_spec "" "High" "All" "All" [entryA]).1 [entryA] (by decide)).1,
   ((filter_results_spec "" "High" "All" "All" [entryA]).1 [entryA] (by decide)).2.1
     entryA (by decide)⟩

/-- C2: the rendered log collection is sorted ascending by the derived
severity key, and the sort is stable: at every key value, the entries
carrying that key appear in the same order as in the filtered input. -/
theorem log_sort_spec (sq sev : String) (ts : List Entry) :
    (filteredTicketsL sq sev ts).Pairwise
      (fun a b => severityKey a.label ≤ severityKey b.label)
    ∧ ∀ k : Nat,
        (filteredTicketsL sq sev ts).filter (fun u => severityKey u.label == k)
          = (logFilter sq sev ts).filter (fun u => severityKey u.label == k) := by
  constructor
  · exact List.sorted_insertionSort leKey (logFilter sq sev ts)
  · intro k
    have hidem :
        ((logFilter sq sev ts).filter (fun u => severityKey u.label == k)).filter
            (fun u => severityKey u.label == k)
          = (logFilter sq sev ts).filter (fun u => severityKey u.label == k) :=
      List.filter_eq_self.mpr (fun a ha => (List.mem_filter.mp ha).2)
    have hpair :
        ((logFilter sq sev ts).filter (fun u => severityKey u.label == k)).Pairwise
          leKey := by
      apply List.pairwise_of_forall_mem_list
      intro a ha b hb
      have hak : severityKey a.label = k := by
        have h2 := (List.mem_filter.mp ha).2
        simpa using h2
      have hbk : severityKey b.label = k := by
        have h2 := (List.mem_filter.mp hb).2
        simpa using h2
      show severityKey a.label ≤ severityKey b.label
      omega
    have hsub :
        List.Sublist
          ((logFilter sq sev ts).filter (fun u => severityKey u.label == k))
          (List.insertionSort leKey (logFilter sq sev ts)) :=
      List.sublist_insertionSort hpair (List.filter_sublist _)
    have hsubf :
        List.Sublist
          ((logFilter sq sev ts).filter (fun u => severityKey u.label == k))
          ((List.insertionSort leKey (logFilter sq sev ts)).filter
            (fun u => severityKey u.label == k)) := by
      have h2 := hsub.filter (fun u => severityKey u.label == k)
      rwa [hidem] at h2
    have hlen :
        ((List.insertionSort leKey (logFilter sq sev ts)).filter
            (fun u => severityKey u.label == k)).length
          = ((logFilter sq sev ts).filter
              (fun u => severityKey u.label == k)).length :=
      ((List.perm_insertionSort leKey (logFilter sq sev ts)).filter
        (fun u => severityKey u.label == k)).length_eq
    exact (hsubf.eq_of_length hlen.symm).symm

/-- A status update leaves every entry whose identifier differs untouched;
in particular it is the identity when no entry matches. -/
theorem handleStatusChange_of_no_match (id : Int) (s : String) (c : List Entry)
    (h : ∀ u ∈ c, ¬ u.id = id) : handleStatusChange id s c = c := by
  induction c with
  | nil => rfl
  | cons t ts ih =>
    have ht : (t.id == id) = false := by
      simp [h t (List.mem_cons_self t ts)]
    simp only [handleStatusChange, List.map_cons, ht, if_neg Bool.false_ne_true]
    have := ih (fun u hu => h u (List.mem_cons_of_mem t hu))
    simpa [handleStatusChange] using this

/-- C4 counterexample: with the one-element collection [entryA] (whose
identifier is 1) and the absent identifier 2, the update changes nothing at
all, so no entry has its status field changed to the new value, contrary to
the claim that exactly one entry changes for every collection and
identifier. -/
theorem handleStatusChange_counterexample :
    handleStatusChange 2 "Resolved" [entryA] = [entryA]
    ∧ ¬ entryA.status = some "Resolved" := by
  constructor
  · rfl
  · decide

/-- C4 amended: when the collection holds exactly one entry carrying the
identifier (the situation the identifier-uniqueness invariant plus presence
guarantees), the update rewrites the collection at exactly that position,
replacing only the status field of that entry; length and order are
untouched. -/
theorem handleStatusChange_spec (id : Int) (s : String) (c : List Entry)
    (h : (c.filter (fun t => t.id == id)).length = 1) :
    (handleStatusChange id s c).length = c.length
    ∧ ∃ i, ∃ hi : i < c.length,
        (c.get ⟨i, hi⟩).id = id
        ∧ handleStatusChange id s c
            = c.set i { c.get ⟨i, hi⟩ with status := some s } := by
  refine ⟨by simp [handleStatusChange], ?_⟩
  induction c with
  | nil => simp at h
  | cons t ts ih =>
    by_cases ht : t.id = id
    · have htb : (t.id == id) = true := by simp [ht]
      have hts : (ts.filter (fun u => u.id == id)).length = 0 := by
        rw [List.filter_cons, if_pos htb] at h
        simpa using h
      have hnone : ∀ u ∈ ts, ¬ u.id = id := by
        intro u hu hui
        have : u ∈ ts.filter (fun v => v.id == id) :=
          List.mem_filter.mpr ⟨hu, by simp [hui]⟩
        rw [List.length_eq_zero.mp hts] at this
        cases this
      refine ⟨0, Nat.succ_pos _, ht, ?_⟩
      simp only [handleStatusChange, List.map_cons, htb, if_pos rfl,
        List.get, List.set]
      have := handleStatusChange_of_no_match id s ts hnone
      simpa [handleStatusChange] using this
    · have htb : (t.id == id) = false := by simp [ht]
      have h2 : (ts.filter (fun u => u.id == id)).length = 1 := by
        rw [List.filter_cons, if_neg (by simp [htb])] at h
        exact h
      obtain ⟨i, hi, hid, heq⟩ := ih h2
      refine ⟨i + 1, Nat.succ_lt_succ hi, hid, ?_⟩
      simp only [handleStatusChange, List.map_cons, htb,
        if_neg Bool.false_ne_true, List.set]
      exact congrArg (t :: ·) heq

/-- Witness for handleStatusChange_spec at a concrete collection. -/
theorem handleStatusChange_spec_witness :
    (([entryA, entryB] : List Entry).filter (fun t => t.id == 2)).length = 1
    ∧ (handleStatusChange 2 "Resolved" [entryA, entryB]).length
        = ([entryA, entryB] : List Entry).length
    ∧ handleStatusChange 2 "Resolved" [entryA, entryB]
        = [entryA, { entryB with status := some "Resolved" }] :=
  ⟨by decide, (handleStatusChange_spec 2 "Resolved" [entryA, entryB] (by decide)).1,
   by decide⟩

/-- C5 counterexample: on a failed logs fetch, the resulting component
state is the initial state with only the loading flag cleared; the
log-variant Dashboard state carries no error field at all, so no error
state is set, contrary to the claim that both adapters set one. -/
theorem fetch_logs_failure_counterexample :
    fetchLogsRun initialDashboardState (.failure "Failed to fetch logs: 500")
      = { initialDashboardState with loading := false } := rfl

/-- C5 amended: on failure during initial load, the servers adapter records
the message in its error state, ceases loading and leaves the collection
empty, and on success replaces the collection by the servers field of the
parsed body (empty when absent); the logs adapter on failure merely ceases
loading, leaving the collection empty and recording nothing, and on
success replaces the collection by the parsed array. -/
theorem fetch_adapters_spec :
    (∀ msg, fetchServersRun initialServerPageState (.failure msg)
        = { initialServerPageState with error := some msg, loading := false })
    ∧ (∀ msg, (fetchServersRun initialServerPageState (.failure msg)).servers = [])
    ∧ (∀ body, fetchServersRun initialServerPageState (.success body)
        = { initialServerPageState with
            servers := body.servers.getD [], loading := false })
    ∧ (∀ msg, fetchLogsRun initialDashboardState (.failure msg)
        = { initialDashboardState with loading := false })
    ∧ (∀ msg, (fetchLogsRun initialDashboardState (.failure msg)).tickets = [])
    ∧ (∀ data, fetchLogsRun initialDashboardState (.success data)
        = { initialDashboardState with tickets := data, loading := false }) :=
  ⟨fun _ => rfl, fun _ => rfl, fun _ => rfl, fun _ => rfl, fun _ => rfl,
   fun _ => rfl⟩

/-- C6: when the required text fields are empty or whitespace-only (the
title in the ticket variant; the title or the description in the log
variant), submit returns before any effect: the form state is unchanged,
no callback fires, no request body is built or sent, no alert is shown and
the dialog stays open. -/
theorem blank_submit_noop (st : TicketFormState) (lst : LogFormState)
    (o : FetchOutcome Unit) (h1 : strTrim st.title = "")
    (h2 : strTrim lst.title = "" ∨ strTrim lst.description = "") :
    ticketHandleSubmit st = (st, none)
    ∧ logHandleSubmit lst o = (lst, none, none, false) := by
  constructor
  · simp [ticketHandleSubmit, h1]
  · rcases h2 with h2 | h2 <;> simp [logHandleSubmit, h2]

/-- A ticket form state with a whitespace-only title, for the witness. -/
def blankTicketForm : TicketFormState :=
  { title := "   ", description := "details", priority := "Medium",
    dialogOpen := true }

/-- A log form state with a whitespace-only description, for the witness. -/
def blankLogForm : LogFormState :=
  { title := "Overheating", description := " ", priority := "High",
    hostname := "rack4-a", loading := false, dialogOpen := true }

/-- Witness for blank_submit_noop at concrete blank form states. -/
theorem blank_submit_noop_witness :
    strTrim blankTicketForm.title = ""
    ∧ (strTrim blankLogForm.title = "" ∨ strTrim blankLogForm.description = "")
    ∧ ticketHandleSubmit blankTicketForm = (blankTicketForm, none)
    ∧ logHandleSubmit blankLogForm (.success ())
        = (blankLogForm, none, none, false) :=
  ⟨by decide, Or.inr (by decide),
   (blank_submit_noop blankTicketForm blankLogForm (.success ()) (by decide)
      (Or.inr (by decide))).1,
   (blank_submit_noop blankTicketForm blankLogForm (.success ()) (by decide)
      (Or.inr (by decide))).2⟩

/-- An entry with no title field, as a fetched log record can be. -/
def noTitleEntry : Entry :=
  { id := 7, description := some "disk full", hostname := some "host-a",
    label := some "x1" }

/-- C7 counterexample: the ticket-variant filter engine raises a TypeError
on an entry whose title field is missing, instead of degrading the field to
a default. -/
theorem filter_engine_raises :
    filteredTicketsT "" "All" "All" [noTitleEntry]
      = .error "TypeError: t.title is undefined" := by decide

/-- Every entry of a successful throwing-filter run was itself accepted by
the predicate, so an erroring entry poisons the whole run. -/
theorem filterM_error_of_mem (p : Entry → Except String Bool) (ts : List Entry)
    (u : Entry) (hu : u ∈ ts) (e : String) (he : p u = .error e) :
    (filterM p ts).isOk = false := by
  induction ts with
  | nil => cases hu
  | cons t ts ih =>
    rw [filterM]
    rcases List.mem_cons.mp hu with rfl | hu2
    · rw [he]
      rfl
    · cases hp : p t with
      | error e2 => rfl
      | ok b =>
        have := ih hu2
        cases hrec : filterM p ts with
        | error e2 => rfl
        | ok rest => rw [hrec] at this; cases this

/-- The ticket-variant predicate succeeds on an entry whose title and
description are both present. -/
theorem ticketPred_ok_of_present (q pf sf : String) (u : Entry)
    (h1 : u.title.isSome = true) (h2 : u.description.isSome = true) :
    ∃ b, ticketPred q pf sf u = .ok b := by
  obtain ⟨ti, hti⟩ := Option.isSome_iff_exists.mp h1
  obtain ⟨d, hd⟩ := Option.isSome_iff_exists.mp h2
  have hms : ∃ mb, matchesSearchTicket q u = .ok mb := by
    rw [matchesSearchTicket, hti, hd]
    by_cases hin : strIncludes (strToLower ti) q = true
    · exact ⟨true, by simp [hin]⟩
    · exact ⟨strIncludes (strToLower d) q, by simp [hin]⟩
  obtain ⟨mb, hmb⟩ := hms
  rw [ticketPred, hmb]
  exact ⟨_, rfl⟩

/-- C7 corrected: the log-variant engine is total, degrading a missing
hostname to the empty string and a missing label to severity key 0; the
ticket-variant filter succeeds whenever every entry carries both title and
description, but errors as soon as some entry lacks a title. -/
theorem filter_engine_totality (q pf sf sev : String) (ts : List Entry)
    (t : Entry) :
    (ts.all (fun u => u.title.isSome && u.description.isSome) = true →
      (filteredTicketsT q pf sf ts).isOk = true)
    ∧ (ts.any (fun u => !u.title.isSome) = true →
      (filteredTicketsT q pf sf ts).isOk = false)
    ∧ (t.hostname = none →
      logPred q sev t = logPred q sev { t with hostname := some "" })
    ∧ (t.label = none → severityKey t.label = 0) := by
  refine ⟨?_, ?_, ?_, ?_⟩
  · intro hall
    rw [filteredTicketsT]
    induction ts with
    | nil => rfl
    | cons u us ih =>
      rw [List.all_cons, Bool.and_eq_true] at hall
      obtain ⟨hu, hus⟩ := hall
      rw [Bool.and_eq_true] at hu
      obtain ⟨b, hb⟩ :=
        ticketPred_ok_of_present (strToLower q) pf sf u hu.1 hu.2
      rw [filterM, hb]
      have := ih hus
      cases hrec : filterM (ticketPred (strToLower q) pf sf) us with
      | error e => rw [hrec] at this; cases this
      | ok rest => rfl
  · intro hany
    rw [List.any_eq_true] at hany
    obtain ⟨u, hu, hmiss⟩ := hany
    have hnone : u.title = none := by
      cases hut : u.title
      · rfl
      · rw [hut] at hmiss; cases hmiss
    refine filterM_error_of_mem _ ts u hu "TypeError: t.title is undefined" ?_
    rw [ticketPred, matchesSearchTicket, hnone]
    rfl
  · intro hh
    rw [logPred, logPred, hh]
    rfl
  · intro hl
    rw [hl]
    rfl

/-- An entry whose title and description are both present, for the
witness. -/
def presentEntry : Entry :=
  { id := 3, title := some "A", description := some "d",
    hostname := some "host-b", label := some "y2" }

/-- Witness for filter_engine_totality at concrete collections. -/
theorem filter_engine_totality_witness :
    ([presentEntry].all (fun u => u.title.isSome && u.description.isSome) = true)
    ∧ (filteredTicketsT "x" "All" "All" [presentEntry]).isOk = true
    ∧ ([noTitleEntry].any (fun u => !u.title.isSome) = true)
    ∧ (filteredTicketsT "x" "All" "All" [noTitleEntry]).isOk = false
    ∧ ({ id := 9 } : Entry).hostname = none
    ∧ logPred "q" "All" { id := 9 }
        = logPred "q" "All" { ({ id := 9 } : Entry) with hostname := some "" }
    ∧ severityKey ({ id := 9 } : Entry).label = 0 :=
  ⟨by decide,
   (filter_engine_totality "x" "All" "All" "All" [presentEntry] { id := 9 }).1
     (by decide),
   by decide,
   (filter_engine_totality "x" "All" "All" "All" [noTitleEntry] { id := 9 }).2.1
     (by decide),
   rfl,
   (filter_engine_totality "x" "All" "All" "All" [presentEntry] { id := 9 }).2.2.1
     rfl,
   (filter_engine_totality "x" "All" "All" "All" [presentEntry] { id := 9 }).2.2.2
     rfl⟩

/-- C9: for a selected rack with a non-empty server set, the detail view
renders exactly 8 rows, one per slot 1 through 8 in order; a row carries a
server only if that server occupies the rack at exactly that slot, and a
row carries the empty marker exactly when no server of the rack occupies
its slot. -/
theorem rack_detail_spec (rackServers : List Server)
    (h : ¬ rackServers = []) :
    rackDetailView rackServers = some (rackDetailRows rackServers)
    ∧ (rackDetailRows rackServers).length = 8
    ∧ (rackDetailRows rackServers).map Prod.fst = [1, 2, 3, 4, 5, 6, 7, 8]
    ∧ (∀ slot srv, (slot, some srv) ∈ rackDetailRows rackServers →
        srv ∈ rackServers ∧ srv.slot = slot)
    ∧ (∀ slot, ((slot : Int), (none : Option Server)) ∈ rackDetailRows rackServers →
        ∀ srv ∈ rackServers, ¬ srv.slot = slot) := by
  refine ⟨?_, rfl, ?_, ?_, ?_⟩
  · rw [rackDetailView, if_neg (fun hlen => h (List.length_eq_zero.mp hlen))]
  · simp only [rackDetailRows, List.map_map]
    rfl
  · intro slot srv hmem
    rw [rackDetailRows] at hmem
    obtain ⟨a, _, ha⟩ := List.mem_map.mp hmem
    obtain ⟨rfl, hfind⟩ := Prod.mk.inj ha
    constructor
    · exact List.mem_of_find?_eq_some hfind
    · have := List.find?_some hfind
      simpa using this
  · intro slot hmem srv hsrv
    rw [rackDetailRows] at hmem
    obtain ⟨a, _, ha⟩ := List.mem_map.mp hmem
    obtain ⟨rfl, hfind⟩ := Prod.mk.inj ha
    have := List.find?_eq_none.mp hfind srv hsrv
    simpa using this

/-- A server in slot 2, for the witness. -/
def srvSlot2 : Server :=
  { rack := some { label := "R1" }, hostname := "host-2",
    serial_number := "sn-2", slot := 2 }

/-- A server in slot 5, for the witness. -/
def srvSlot5 : Server :=
  { rack := some { label := "R1" }, hostname := "host-5",
    serial_number := "sn-5", slot := 5 }

/-- Witness for rack_detail_spec: a rack occupied at slots 2 and 5 renders
8 rows, the rows at the other slots carrying the empty marker. -/
theorem rack_detail_spec_witness :
    (¬ ([srvSlot2, srvSlot5] : List Server) = [])
    ∧ rackDetailView [srvSlot2, srvSlot5]
        = some (rackDetailRows [srvSlot2, srvSlot5])
    ∧ (rackDetailRows [srvSlot2, srvSlot5]).length = 8
    ∧ rackDetailRows [srvSlot2, srvSlot5]
        = [(1, none), (2, some srvSlot2), (3, none), (4, none),
           (5, some srvSlot5), (6, none), (7, none), (8, none)] :=
  ⟨by decide, (rack_detail_spec [srvSlot2, srvSlot5] (by decide)).1,
   (rack_detail_spec [srvSlot2, srvSlot5] (by decide)).2.1, by decide⟩

/-- C10: every log-variant submission that passes validation POSTs a
payload whose label is BAD + title + underscore + the first character of
the selected priority; with the four selectable priorities that last
character is L, M, H or C, never a digit, so the derived severity key of
such a record is 0 and every severity selector 1 through 4 excludes it. -/
theorem log_payload_label_spec (st : LogFormState) (o : FetchOutcome Unit)
    (hg1 : ¬ strTrim st.title = "") (hg2 : ¬ strTrim st.description = "")
    (hp : st.priority ∈ (["Low", "Medium", "High", "Critical"] : List String)) :
    (buildLogPayload st).label = "BAD" ++ st.title ++ "_" ++ charAt0 st.priority
    ∧ (logHandleSubmit st o).2.1 = some (buildLogPayload st)
    ∧ ((buildLogPayload st).label.data.getLast? = some 'L'
       ∨ (buildLogPayload st).label.data.getLast? = some 'M'
       ∨ (buildLogPayload st).label.data.getLast? = some 'H'
       ∨ (buildLogPayload st).label.data.getLast? = some 'C')
    ∧ severityKey (some (buildLogPayload st).label) = 0
    ∧ (∀ sel ∈ (["1", "2", "3", "4"] : List String), ∀ q : String, ∀ t : Entry,
        t.label = some (buildLogPayload st).label → logPred q sel t = false) := by
  have hlast : ∀ c : Char, charAt0 st.priority = String.singleton c →
      (buildLogPayload st).label.data.getLast? = some c := by
    intro c hc
    show ("BAD" ++ st.title ++ "_" ++ charAt0 st.priority).data.getLast? = some c
    rw [hc]
    rw [String.data_append]
    exact List.getLast?_concat _
  have hlmhc :
      (buildLogPayload st).label.data.getLast? = some 'L'
      ∨ (buildLogPayload st).label.data.getLast? = some 'M'
      ∨ (buildLogPayload st).label.data.getLast? = some 'H'
      ∨ (buildLogPayload st).label.data.getLast? = some 'C' := by
    simp only [List.mem_cons, List.not_mem_nil, or_false] at hp
    rcases hp with hp | hp | hp | hp
    · exact Or.inl (hlast 'L' (by rw [hp]; rfl))
    · exact Or.inr (Or.inl (hlast 'M' (by rw [hp]; rfl)))
    · exact Or.inr (Or.inr (Or.inl (hlast 'H' (by rw [hp]; rfl))))
    · exact Or.inr (Or.inr (Or.inr (hlast 'C' (by rw [hp]; rfl))))
  have hkey : severityKey (some (buildLogPayload st).label) = 0 := by
    rw [severityKey]
    rcases hlmhc with hl | hl | hl | hl <;>
      simp only [Option.getD_some, hl] <;> rfl
  refine ⟨rfl, ?_, hlmhc, hkey, ?_⟩
  · have hguard :
        (strTrim st.title == "" || strTrim st.description == "") = false := by
      simp [hg1, hg2]
    rw [logHandleSubmit]
    rw [hguard]
    cases o with
    | success d => rfl
    | failure m => rfl
  · intro sel hsel q t ht
    have hkey2 : severityKey t.label = 0 := by rw [ht]; exact hkey
    simp only [List.mem_cons, List.not_mem_nil, or_false] at hsel
    have hna : (sel == "All") = false := by
      rcases hsel with h | h | h | h <;> (rw [h]; rfl)
    have hnum : ∀ n, strToNat? sel = some n → ¬ n = 0 := by
      rcases hsel with h | h | h | h <;>
        (rw [h]; intro n hn hz; rw [Option.some.inj hn.symm] at hz; cases hz)
    rw [logPred]
    simp only [hkey2, hna, Bool.false_or]
    cases hsn : strToNat? sel with
    | none => simp
    | some n =>
      have hnz : (0 == n) = false := by
        have := hnum n hsn
        cases n with
        | zero => exact absurd rfl this
        | succ m => rfl
      simp [hnz]

/-- A log form state with valid fields, for the witness. -/
def filledLogForm : LogFormState :=
  { title := "X", description := "disk alert", priority := "Medium",
    hostname := "", loading := false, dialogOpen := true }

/-- Witness for log_payload_label_spec at a concrete submission: the label
is BADX_M, its severity key is 0, and the severity selector 1 excludes an
entry carrying it. -/
theorem log_payload_label_spec_witness :
    (¬ strTrim filledLogForm.title = "")
    ∧ (¬ strTrim filledLogForm.description = "")
    ∧ filledLogForm.priority ∈ (["Low", "Medium", "High", "Critical"] : List String)
    ∧ (buildLogPayload filledLogForm).label = "BADX_M"
    ∧ severityKey (some (buildLogPayload filledLogForm).label) = 0
    ∧ logPred "" "1" { id := 4, label := some "BADX_M" } = false :=
  ⟨by decide, by decide, by decide, by decide,
   (log_payload_label_spec filledLogForm (.success ()) (by decide) (by decide)
      (by decide)).2.2.2.1,
   (log_payload_label_spec filledLogForm (.success ()) (by decide) (by decide)
      (by decide)).2.2.2.2 "1" (by decide) ""
      { id := 4, label := some "BADX_M" } (by decide)⟩

end TicketHub
